import Mathlib

/-!
# Verification of the better-auth-asaas webhook engine and endpoints

A shallow embedding of the repository's webhook event-routing and
reconciliation engine (src/endpoints/webhook.ts), the subscription-creation
endpoint (src/endpoints/subscription.ts) and the HTTP client's header
construction (src/asaas.ts, AsaasClient.request), together with theorems
settling the specification's claims about them.

Modelling conventions:
- JavaScript exceptions are modelled with explicit outcome types; a `catch`
  in the source corresponds to an outcome that is absorbed in the model.
- External nondeterminism (whether an adapter update throws, whether the
  QR-code fetch throws, whether a caller-supplied handler throws) is carried
  by an explicit environment record `Env`.
- Untrusted JSON fields are `Option`-valued and JavaScript truthiness
  (`undefined` and `""` are falsy) is modelled by `truthyStr`.
- The current date string produced by `new Date().toISOString().split("T")[0]`
  is threaded as an explicit argument; a civil-calendar clock model links it
  to UTC/local dates where a claim depends on the distinction.
-/

namespace BetterAuthAsaas

/-- JavaScript truthiness of a possibly-absent string field:
`undefined` and the empty string are falsy. -/
def truthyStr : Option String → Bool
  | none => false
  | some s => s != ""

/-- JavaScript truthiness of a possibly-absent number field:
`undefined` and `0` are falsy. -/
def truthyNat : Option Nat → Bool
  | none => false
  | some n => n != 0

/-- The QR enrichment block returned by `AsaasClient.getPixQrCode`. -/
structure PixQrCode where
  encodedImage : String
  payload : String
  expirationDate : String
  success : Bool
deriving Repr, DecidableEq

/-- Embedded payment snapshot of an inbound notification
(`AsaasPaymentWebhookData`). The source declares the fields as required
strings, but the body is untrusted JSON, so the code re-checks truthiness;
we model the fields the engine reads as optional. -/
structure AsaasPaymentWebhookData where
  id : Option String := none
  status : Option String := none
  billingType : Option String := none
  dueDate : Option String := none
deriving Repr, DecidableEq

/-- Embedded subscription snapshot of an inbound notification
(`AsaasSubscriptionWebhookData`); only the fields the engine reads. -/
structure AsaasSubscriptionWebhookData where
  id : Option String := none
  status : Option String := none
deriving Repr, DecidableEq

/-- The payload passed to event callbacks (`AsaasEventPayload`). -/
structure AsaasEventPayload where
  event : String
  payment : Option AsaasPaymentWebhookData := none
  subscription : Option AsaasSubscriptionWebhookData := none
  pixQrCode : Option PixQrCode := none
deriving Repr, DecidableEq

/-- Names of the eleven optional handler slots of `AsaasEventHandlers`. -/
inductive HandlerName where
  | onPaymentCreated
  | onPaymentDueSoon
  | onPaymentDue
  | onPaymentOverdue
  | onPaymentConfirmed
  | onPaymentRefunded
  | onPaymentChargeback
  | onSubscriptionCreated
  | onSubscriptionRenewed
  | onSubscriptionCanceled
  | onOtherEvent
deriving Repr, DecidableEq

/-- Which of the eleven optional handler slots the caller registered
(`true` = a callback is present; optional chaining skips absent ones). -/
structure AsaasEventHandlers where
  onPaymentCreated : Bool := false
  onPaymentDueSoon : Bool := false
  onPaymentDue : Bool := false
  onPaymentOverdue : Bool := false
  onPaymentConfirmed : Bool := false
  onPaymentRefunded : Bool := false
  onPaymentChargeback : Bool := false
  onSubscriptionCreated : Bool := false
  onSubscriptionRenewed : Bool := false
  onSubscriptionCanceled : Bool := false
  onOtherEvent : Bool := false
deriving Repr, DecidableEq

/-- A row of the `asaasSubscription` mirror table. -/
structure SubRow where
  userId : String := ""
  asaasId : String
  status : String
  billingType : String := ""
  value : Rat := 0
  nextDueDate : String := ""
  description : Option String := none
  externalReference : Option String := none
  trialEndsAt : Option String := none
deriving Repr, DecidableEq

/-- A row of the `asaasPayment` mirror table (the fields the engine touches). -/
structure PayRow where
  userId : String := ""
  asaasId : String
  status : String
deriving Repr, DecidableEq

/-- The local mirror store: the two adapter tables the engine updates. -/
structure Store where
  subs : List SubRow := []
  pays : List PayRow := []
deriving Repr, DecidableEq

/-- `adapter.update` on `asaasSubscription` with `where asaasId = id` and
`update = \x7b status \x7d`: overwrites the status of every matching row
(zero-or-more). -/
def updateSubStatusL (rows : List SubRow) (id status : String) : List SubRow :=
  rows.map fun r => if r.asaasId = id then { r with status := status } else r

/-- `adapter.update` on `asaasPayment` with `where asaasId = id`. -/
def updatePayStatusL (rows : List PayRow) (id status : String) : List PayRow :=
  rows.map fun r => if r.asaasId = id then { r with status := status } else r

/-- Store-level subscription status overwrite. -/
def updateSubStatus (st : Store) (id status : String) : Store :=
  { st with subs := updateSubStatusL st.subs id status }

/-- Store-level payment status overwrite. -/
def updatePayStatus (st : Store) (id status : String) : Store :=
  { st with pays := updatePayStatusL st.pays id status }

/-- Observable processing effects of one webhook pass, in order:
adapter updates attempted, QR fetches attempted, handlers invoked,
handler errors logged. -/
inductive Effect where
  | updateSubscriptionRow (id status : String)
  | updatePaymentRow (id status : String)
  | getPixQrCode (paymentId : String)
  | invokeHandler (h : HandlerName) (payload : AsaasEventPayload)
  | logError
deriving Repr, DecidableEq

/-- External nondeterminism of one webhook pass: whether each fallible
external operation raises, and what the QR fetch returns when it succeeds
(`pixQr = none` models `getPixQrCode` throwing). -/
structure Env where
  subSyncThrows : Bool := false
  paySyncThrows : Bool := false
  subDeleteThrows : Bool := false
  pixQr : Option PixQrCode := none
  handlerThrows : Bool := false
deriving Repr, DecidableEq

/-- What the endpoint hands back to the HTTP layer: a JSON response with a
status code, or an uncaught exception escaping the endpoint body. -/
inductive WebhookOutcome where
  | respond (status : Nat) (unauthorized : Bool)
  | raised
deriving Repr, DecidableEq

/-- The fixed success acknowledgment `ctx.json(\x7b received: true \x7d)`. -/
def ackResponse : WebhookOutcome := WebhookOutcome.respond 200 false

/-- The rejection `ctx.json(\x7b error: "Unauthorized" \x7d, \x7b status: 401 \x7d)`. -/
def unauthorizedResponse : WebhookOutcome := WebhookOutcome.respond 401 true

/-- Result of one webhook pass: outcome, final store, effect trace. -/
structure RunResult where
  response : WebhookOutcome
  store : Store
  trace : List Effect
deriving Repr, DecidableEq

/-- The secret gate of `webhookEndpoint`: `if (webhookSecret)` then reject
when `!token || token !== webhookSecret`, reading the
`asaas-access-token` header (`none` = header absent). -/
def unauthorizedReject (webhookSecret token : Option String) : Bool :=
  match webhookSecret with
  | none => false
  | some s =>
    if s == "" then false
    else
      match token with
      | none => true
      | some t => t == "" || t != s

/-- `const payload = \x7b event, payment, subscription \x7d`: the dispatch
payload rebuilt from the destructured body (any inbound `pixQrCode` field
is dropped). -/
def mkPayload (body : AsaasEventPayload) : AsaasEventPayload :=
  { event := body.event, payment := body.payment, subscription := body.subscription }

/-- The generic subscription sync applies when a subscription snapshot is
present with truthy `id` and `status`; returns the pair to write. -/
def subSyncKey (payload : AsaasEventPayload) : Option (String × String) :=
  match payload.subscription with
  | some sub =>
    if truthyStr sub.id && truthyStr sub.status then
      some (sub.id.getD "", sub.status.getD "")
    else none
  | none => none

/-- The generic payment sync applies when a payment snapshot is present with
truthy `id` and `status`. -/
def paySyncKey (payload : AsaasEventPayload) : Option (String × String) :=
  match payload.payment with
  | some p =>
    if truthyStr p.id && truthyStr p.status then
      some (p.id.getD "", p.status.getD "")
    else none
  | none => none

/-- The PIX enrichment attempt of the `PAYMENT_CREATED` and
`PAYMENT_DUE_DATE_REMINDER` branches: when the client is configured, a
payment snapshot is present with `billingType === "PIX"` and a truthy id,
try `getPixQrCode` and attach the block; a throw is swallowed.
Returns the (possibly enriched) payload and the fetch-attempt trace. -/
def enrichPix (asaasConfigured : Bool) (env : Env) (payload : AsaasEventPayload) :
    AsaasEventPayload × List Effect :=
  match payload.payment with
  | some p =>
    if asaasConfigured && (p.billingType == some "PIX") && truthyStr p.id then
      match env.pixQr with
      | some qr => ({ payload with pixQrCode := some qr }, [Effect.getPixQrCode (p.id.getD "")])
      | none => (payload, [Effect.getPixQrCode (p.id.getD "")])
    else (payload, [])
  | none => (payload, [])

/-- `await handlers.onX?.(payload)`: when the slot is registered, record the
invocation and report whether the callback threw; otherwise a no-op. -/
def invokeIf (registered throws : Bool) (h : HandlerName) (p : AsaasEventPayload) :
    List Effect × Bool :=
  if registered then ([Effect.invokeHandler h p], throws) else ([], false)

/-- A switch branch that only invokes one handler: no store change. -/
def plainInvoke (registered : Bool) (env : Env) (h : HandlerName)
    (payload : AsaasEventPayload) : (Store → Store) × List Effect × Bool :=
  let iv := invokeIf registered env.handlerThrows h payload
  (id, iv.fst, iv.snd)

/-- The `switch (event)` of `webhookEndpoint`: classification, enrichment,
forced cancel update, and dispatch. Returns the store transformation, the
effect trace of the branch, and whether the branch threw (handler error). -/
def dispatchEvent (handlers : AsaasEventHandlers) (asaasConfigured : Bool) (env : Env)
    (today : String) (payload : AsaasEventPayload) :
    (Store → Store) × List Effect × Bool :=
  if payload.event == "PAYMENT_CREATED" then
    let ep := enrichPix asaasConfigured env payload
    let iv := invokeIf handlers.onPaymentCreated env.handlerThrows
      HandlerName.onPaymentCreated ep.fst
    (id, ep.snd ++ iv.fst, iv.snd)
  else if payload.event == "PAYMENT_DUE_DATE_REMINDER" then
    let ep := enrichPix asaasConfigured env payload
    let iv := invokeIf handlers.onPaymentDueSoon env.handlerThrows
      HandlerName.onPaymentDueSoon ep.fst
    (id, ep.snd ++ iv.fst, iv.snd)
  else if payload.event == "PAYMENT_OVERDUE" then
    match payload.payment with
    | some p =>
      if p.dueDate == some today then
        plainInvoke handlers.onPaymentDue env HandlerName.onPaymentDue payload
      else
        plainInvoke handlers.onPaymentOverdue env HandlerName.onPaymentOverdue payload
    | none => plainInvoke handlers.onPaymentOverdue env HandlerName.onPaymentOverdue payload
  else if payload.event == "PAYMENT_CONFIRMED" || payload.event == "PAYMENT_RECEIVED" then
    plainInvoke handlers.onPaymentConfirmed env HandlerName.onPaymentConfirmed payload
  else if payload.event == "PAYMENT_REFUNDED" ||
      payload.event == "PAYMENT_PARTIALLY_REFUNDED" then
    plainInvoke handlers.onPaymentRefunded env HandlerName.onPaymentRefunded payload
  else if payload.event == "PAYMENT_CHARGEBACK_REQUESTED" ||
      payload.event == "PAYMENT_CHARGEBACK_DISPUTE" ||
      payload.event == "PAYMENT_AWAITING_CHARGEBACK_REVERSAL" then
    plainInvoke handlers.onPaymentChargeback env HandlerName.onPaymentChargeback payload
  else if payload.event == "SUBSCRIPTION_CREATED" then
    plainInvoke handlers.onSubscriptionCreated env HandlerName.onSubscriptionCreated payload
  else if payload.event == "SUBSCRIPTION_RENEWED" then
    plainInvoke handlers.onSubscriptionRenewed env HandlerName.onSubscriptionRenewed payload
  else if payload.event == "SUBSCRIPTION_DELETED" then
    let forced : (Store → Store) × List Effect :=
      match payload.subscription with
      | some sub =>
        if truthyStr sub.id then
          (fun st => if env.subDeleteThrows then st
            else updateSubStatus st (sub.id.getD "") "INACTIVE",
           [Effect.updateSubscriptionRow (sub.id.getD "") "INACTIVE"])
        else (id, [])
      | none => (id, [])
    let iv := invokeIf handlers.onSubscriptionCanceled env.handlerThrows
      HandlerName.onSubscriptionCanceled payload
    (forced.fst, forced.snd ++ iv.fst, iv.snd)
  else
    plainInvoke handlers.onOtherEvent env HandlerName.onOtherEvent payload

/-- The processing pass after the generic subscription sync succeeded (or
did not apply): payment sync with its `.catch`, then the try/catch-wrapped
switch, then the unconditional acknowledgment. -/
def afterSubSync (handlers : AsaasEventHandlers) (asaasConfigured : Bool) (env : Env)
    (today : String) (payload : AsaasEventPayload) (st : Store) (tr : List Effect) :
    RunResult :=
  let stp :=
    match paySyncKey payload with
    | some is =>
      ((if env.paySyncThrows then st else updatePayStatus st is.fst is.snd),
       tr ++ [Effect.updatePaymentRow is.fst is.snd])
    | none => (st, tr)
  let dp := dispatchEvent handlers asaasConfigured env today payload
  { response := ackResponse,
    store := dp.fst stp.fst,
    trace := stp.snd ++ dp.snd.fst ++ (if dp.snd.snd then [Effect.logError] else []) }

/-- Body processing of `webhookEndpoint` after the secret gate: the generic
subscription sync is the one `await`ed adapter call with no `.catch`, so its
failure escapes the endpoint; everything afterwards is failure-isolated. -/
def processBody (handlers : AsaasEventHandlers) (asaasConfigured : Bool) (env : Env)
    (today : String) (body : AsaasEventPayload) (st : Store) : RunResult :=
  let payload := mkPayload body
  match subSyncKey payload with
  | some is =>
    if env.subSyncThrows then
      { response := WebhookOutcome.raised, store := st,
        trace := [Effect.updateSubscriptionRow is.fst is.snd] }
    else
      afterSubSync handlers asaasConfigured env today payload
        (updateSubStatus st is.fst is.snd)
        [Effect.updateSubscriptionRow is.fst is.snd]
  | none => afterSubSync handlers asaasConfigured env today payload st []

/-- One full pass of `webhookEndpoint`: secret gate, then body processing. -/
def runWebhook (webhookSecret token : Option String) (handlers : AsaasEventHandlers)
    (asaasConfigured : Bool) (env : Env) (today : String) (body : AsaasEventPayload)
    (st : Store) : RunResult :=
  if unauthorizedReject webhookSecret token then
    { response := unauthorizedResponse, store := st, trace := [] }
  else processBody handlers asaasConfigured env today body st

/-- Handlers invoked during a pass, in order. -/
def invokedHandlers (tr : List Effect) : List HandlerName :=
  tr.filterMap fun e =>
    match e with
    | Effect.invokeHandler h _ => some h
    | _ => none

/-- Handler invocations with their payloads, in order. -/
def invocations (tr : List Effect) : List (HandlerName × AsaasEventPayload) :=
  tr.filterMap fun e =>
    match e with
    | Effect.invokeHandler h p => some (h, p)
    | _ => none

/-- QR-fetch attempts of a pass, in order. -/
def fetchAttempts (tr : List Effect) : List String :=
  tr.filterMap fun e =>
    match e with
    | Effect.getPixQrCode pid => some pid
    | _ => none

/-! ## Civil calendar model

`new Date().toISOString().split("T")[0]` formats the **UTC** calendar date of
the current instant. To reason about it we model the proleptic Gregorian
calendar with the standard days-from-civil / civil-from-days conversions and
a clock carrying the instant (UTC minutes since the epoch) together with the
server's fixed UTC offset. -/

/-- Days since 1970-01-01 of the civil date (y, m, d), proleptic Gregorian. -/
def daysFromCivil (y m d : Int) : Int :=
  let yy := if m <= 2 then y - 1 else y
  let era := Int.fdiv yy 400
  let yoe := yy - era * 400
  let mp := Int.emod (m + 9) 12
  let doy := Int.fdiv (153 * mp + 2) 5 + d - 1
  let doe := yoe * 365 + Int.fdiv yoe 4 - Int.fdiv yoe 100 + doy
  era * 146097 + doe - 719468

/-- Civil date (y, m, d) of a count of days since 1970-01-01. -/
def civilFromDays (z0 : Int) : Int × Int × Int :=
  let z := z0 + 719468
  let era := Int.fdiv z 146097
  let doe := z - era * 146097
  let yoe := Int.fdiv (doe - Int.fdiv doe 1460 + Int.fdiv doe 36524 - Int.fdiv doe 146096) 365
  let y := yoe + era * 400
  let doy := doe - (365 * yoe + Int.fdiv yoe 4 - Int.fdiv yoe 100)
  let mp := Int.fdiv (5 * doy + 2) 153
  let d := doy - Int.fdiv (153 * mp + 2) 5 + 1
  let m := mp + (if mp < 10 then 3 else -9)
  (if m <= 2 then y + 1 else y, m, d)

/-- Left-pad a nonnegative integer's decimal form to a given width. -/
def padNum (width : Nat) (n : Int) : String :=
  let s := toString n.toNat
  String.mk (List.replicate (width - s.length) '0') ++ s

/-- The `YYYY-MM-DD` rendering used by `toISOString` for the date part. -/
def isoDate : Int × Int × Int → String
  | (y, m, d) => padNum 4 y ++ "-" ++ padNum 2 m ++ "-" ++ padNum 2 d

/-- The serving process's clock: the current instant in UTC minutes since the
epoch, and the fixed offset such that local wall-clock time is
`utcMinutes + tzOffsetMinutes`. -/
structure JsClock where
  utcMinutes : Int
  tzOffsetMinutes : Int := 0
deriving Repr, DecidableEq

/-- `new Date().toISOString().split("T")[0]`: the **UTC** date string of the
current instant (independent of the server's time zone). -/
def utcDateStr (c : JsClock) : String :=
  isoDate (civilFromDays (Int.fdiv c.utcMinutes 1440))

/-- The server's **local** calendar date string of the current instant, the
date the specification's words refer to. -/
def localDateStr (c : JsClock) : String :=
  isoDate (civilFromDays (Int.fdiv (c.utcMinutes + c.tzOffsetMinutes) 1440))

/-- `webhookEndpoint` run at a clock instant: the `PAYMENT_OVERDUE` branch
compares the due date against the string `toISOString` produces, i.e. the
UTC date of the instant. -/
def runWebhookAt (webhookSecret token : Option String) (handlers : AsaasEventHandlers)
    (asaasConfigured : Bool) (env : Env) (clock : JsClock) (body : AsaasEventPayload)
    (st : Store) : RunResult :=
  runWebhook webhookSecret token handlers asaasConfigured env (utcDateStr clock) body st

/-- `const d = new Date(); d.setDate(d.getDate() + n); d.toISOString().split("T")[0]`
with a fixed UTC offset: adding `n` civil days to the local wall-clock time
shifts the instant by exactly `n` days, so the formatted UTC date is the
current UTC date plus `n` days. -/
def jsAddDaysISO (c : JsClock) (n : Int) : String :=
  isoDate (civilFromDays (Int.fdiv c.utcMinutes 1440 + n))

/-! ## Gateway client header construction (`AsaasClient.request`) -/

/-- The case normalization `Headers` applies to every header name. -/
def lowerName (s : String) : String := String.mk (s.data.map Char.toLower)

/-- A JS `Headers` object as a partial map from case-insensitively
normalized (lowercased) header names to values. -/
def HeadersMap := String → Option String

/-- `new Headers()`. -/
def emptyHeaders : HeadersMap := fun _ => none

/-- `Headers.set`: store the value under the lowercased name, replacing any
existing entry. -/
def headersSet (hs : HeadersMap) (k v : String) : HeadersMap :=
  fun q => if q = lowerName k then some v else hs q

/-- `Headers.get`: the value stored under the (case-insensitive) name. -/
def headersGet (hs : HeadersMap) (k : String) : Option String :=
  hs (lowerName k)

/-- The header construction of `AsaasClient.request`: start from an empty
`Headers`, set `Content-Type`, `User-Agent` and `access_token`, then copy
every caller-supplied `init.headers` entry over them with `set`, in order. -/
def buildRequestHeaders (apiKey userAgent : String)
    (initHeaders : List (String × String)) : HeadersMap :=
  let h0 := headersSet emptyHeaders "Content-Type" "application/json"
  let h1 := headersSet h0 "User-Agent" userAgent
  let h2 := headersSet h1 "access_token" apiKey
  initHeaders.foldl (fun acc p => headersSet acc p.fst p.snd) h2

/-- `options.userAgent ?? "better-auth-asaas"` from the client constructor
(nullish coalescing: only `undefined` falls back, not the empty string). -/
def effectiveUserAgent (userAgent : Option String) : String :=
  userAgent.getD "better-auth-asaas"

/-! ## Subscription-creation endpoint (`createSubscriptionEndpoint`) -/

/-- The session user as the endpoint reads it: its id and the optional
`asaasCustomerId` field linked at sign-up. -/
structure AuthUser where
  id : String
  asaasCustomerId : Option String := none
deriving Repr, DecidableEq

/-- The zod-validated request body of `/asaas/subscription/create` (the card
fields are opaque pass-through data for the gateway and are not modelled). -/
structure CreateSubBody where
  billingType : String
  value : Rat
  nextDueDate : Option String := none
  trialDays : Option Nat := none
  cycle : Option String := none
  description : Option String := none
  externalReference : Option String := none
deriving Repr, DecidableEq

/-- The request body sent to `asaas.createSubscription` (`AsaasSubscriptionInput`). -/
structure AsaasSubscriptionInput where
  customer : String
  billingType : String
  value : Rat
  nextDueDate : String
  cycle : Option String := none
  description : Option String := none
  externalReference : Option String := none
deriving Repr, DecidableEq

/-- The gateway's response to a subscription creation (`AsaasSubscription`). -/
structure AsaasSubscription where
  id : String
  customer : String := ""
  billingType : String := ""
  value : Rat := 0
  nextDueDate : String
  cycle : String := ""
  status : String
deriving Repr, DecidableEq

/-- What the endpoint hands back: a 400 JSON error, the 200 success body
`\x7b subscription, trialEndsAt? \x7d`, or an uncaught gateway exception. -/
inductive CreateSubOutcome where
  | badRequest (error : String)
  | success (subscription : AsaasSubscription) (trialEndsAt : Option String)
  | raised
deriving Repr, DecidableEq

/-- Result of one creation request: outcome, final store, gateway calls made. -/
structure CreateSubResult where
  response : CreateSubOutcome
  store : Store
  gwCalls : List AsaasSubscriptionInput
deriving Repr, DecidableEq

/-- One pass of `createSubscriptionEndpoint`; `gw` is the external gateway
(`none` models `asaas.createSubscription` throwing). -/
def createSubscriptionRun (user : AuthUser) (body : CreateSubBody) (clock : JsClock)
    (gw : AsaasSubscriptionInput → Option AsaasSubscription) (st : Store) :
    CreateSubResult :=
  if !truthyStr user.asaasCustomerId then
    { response := CreateSubOutcome.badRequest "No Asaas customer linked to this account.",
      store := st, gwCalls := [] }
  else if !truthyNat body.trialDays && !truthyStr body.nextDueDate then
    { response := CreateSubOutcome.badRequest "Provide either nextDueDate or trialDays.",
      store := st, gwCalls := [] }
  else
    let billingStartDate :=
      if truthyNat body.trialDays then jsAddDaysISO clock (Int.ofNat (body.trialDays.getD 0))
      else body.nextDueDate.getD ""
    let trialEndsAt := if truthyNat body.trialDays then some billingStartDate else none
    let input : AsaasSubscriptionInput :=
      { customer := user.asaasCustomerId.getD "", billingType := body.billingType,
        value := body.value, nextDueDate := billingStartDate, cycle := body.cycle,
        description := body.description, externalReference := body.externalReference }
    match gw input with
    | none => { response := CreateSubOutcome.raised, store := st, gwCalls := [input] }
    | some sub =>
      let row : SubRow :=
        { userId := user.id, asaasId := sub.id, status := sub.status,
          billingType := sub.billingType, value := sub.value,
          nextDueDate := sub.nextDueDate, description := body.description,
          externalReference := body.externalReference, trialEndsAt := trialEndsAt }
      { response := CreateSubOutcome.success sub trialEndsAt,
        store := { st with subs := st.subs ++ [row] }, gwCalls := [input] }

/-! ## Helper functions and decomposition lemmas -/

/-- The adapter-update trace of the generic local-sync step of one pass. -/
def syncTrace (body : AsaasEventPayload) : List Effect :=
  (match subSyncKey (mkPayload body) with
   | some is => [Effect.updateSubscriptionRow is.fst is.snd]
   | none => []) ++
  (match paySyncKey (mkPayload body) with
   | some is => [Effect.updatePaymentRow is.fst is.snd]
   | none => [])

/-- The store after the generic local-sync step of one pass. -/
def syncStore (env : Env) (body : AsaasEventPayload) (st : Store) : Store :=
  let st1 := match subSyncKey (mkPayload body) with
    | some is => updateSubStatus st is.fst is.snd
    | none => st
  match paySyncKey (mkPayload body) with
  | some is => if env.paySyncThrows then st1 else updatePayStatus st1 is.fst is.snd
  | none => st1

/-- A handler set with all eleven slots registered. -/
def allHandlers : AsaasEventHandlers :=
  { onPaymentCreated := true, onPaymentDueSoon := true, onPaymentDue := true,
    onPaymentOverdue := true, onPaymentConfirmed := true, onPaymentRefunded := true,
    onPaymentChargeback := true, onSubscriptionCreated := true,
    onSubscriptionRenewed := true, onSubscriptionCanceled := true, onOtherEvent := true }

/-- A small mirror store used by the concrete witnesses. -/
def demoStore : Store :=
  { subs := [{ asaasId := "sub_1", status := "ACTIVE" }],
    pays := [{ asaasId := "pay_1", status := "PENDING" }] }

/-- A sample QR enrichment block used by the concrete witnesses. -/
def demoQr : PixQrCode :=
  { encodedImage := "img", payload := "copy-paste", expirationDate := "2024-06-16",
    success := true }

theorem afterSubSync_response (handlers : AsaasEventHandlers) (cfg : Bool) (env : Env)
    (today : String) (payload : AsaasEventPayload) (st : Store) (tr : List Effect) :
    (afterSubSync handlers cfg env today payload st tr).response = ackResponse := rfl

/-- Decomposition of one authorized pass that does not die in the generic
subscription sync: acknowledgment, store through sync then dispatch, and the
trace laid out as sync effects, dispatch effects, then the error log. -/
theorem runWebhook_eq (secret token : Option String) (handlers : AsaasEventHandlers)
    (cfg : Bool) (env : Env) (today : String) (body : AsaasEventPayload) (st : Store)
    (hauth : unauthorizedReject secret token = false)
    (hsafe : subSyncKey (mkPayload body) = none ∨ env.subSyncThrows = false) :
    runWebhook secret token handlers cfg env today body st =
      { response := ackResponse,
        store := (dispatchEvent handlers cfg env today (mkPayload body)).fst
          (syncStore env body st),
        trace := syncTrace body
          ++ (dispatchEvent handlers cfg env today (mkPayload body)).snd.fst
          ++ (if (dispatchEvent handlers cfg env today (mkPayload body)).snd.snd
              then [Effect.logError] else []) } := by
  unfold runWebhook
  rw [hauth]
  simp only [Bool.false_eq_true, if_false]
  unfold processBody afterSubSync syncStore syncTrace
  cases hk : subSyncKey (mkPayload body) with
  | none =>
    cases hp : paySyncKey (mkPayload body) <;> simp [hk, hp]
  | some is =>
    have hth : env.subSyncThrows = false := by
      cases hsafe with
      | inl h => rw [h] at hk; exact absurd hk (by simp)
      | inr h => exact h
    cases hp : paySyncKey (mkPayload body) <;> simp [hk, hp, hth]

theorem invocations_append (a b : List Effect) :
    invocations (a ++ b) = invocations a ++ invocations b := by
  simp [invocations]

theorem fetchAttempts_append (a b : List Effect) :
    fetchAttempts (a ++ b) = fetchAttempts a ++ fetchAttempts b := by
  simp [fetchAttempts]

theorem invocations_syncTrace (body : AsaasEventPayload) :
    invocations (syncTrace body) = [] := by
  unfold syncTrace
  cases subSyncKey (mkPayload body) <;> cases paySyncKey (mkPayload body) <;>
    simp [invocations]

theorem fetchAttempts_syncTrace (body : AsaasEventPayload) :
    fetchAttempts (syncTrace body) = [] := by
  unfold syncTrace
  cases subSyncKey (mkPayload body) <;> cases paySyncKey (mkPayload body) <;>
    simp [fetchAttempts]

theorem invocations_log (c : Bool) :
    invocations (if c then [Effect.logError] else []) = [] := by
  cases c <;> simp [invocations]

theorem fetchAttempts_log (c : Bool) :
    fetchAttempts (if c then [Effect.logError] else []) = [] := by
  cases c <;> simp [fetchAttempts]

/-- The handler invocations of an authorized pass are exactly those of the
dispatch step. -/
theorem runWebhook_invocations (secret token : Option String)
    (handlers : AsaasEventHandlers) (cfg : Bool) (env : Env) (today : String)
    (body : AsaasEventPayload) (st : Store)
    (hauth : unauthorizedReject secret token = false)
    (hsafe : subSyncKey (mkPayload body) = none ∨ env.subSyncThrows = false) :
    invocations (runWebhook secret token handlers cfg env today body st).trace =
      invocations (dispatchEvent handlers cfg env today (mkPayload body)).snd.fst := by
  rw [runWebhook_eq secret token handlers cfg env today body st hauth hsafe]
  simp [invocations_append, invocations_syncTrace, invocations_log]

/-- The QR-fetch attempts of an authorized pass are exactly those of the
dispatch step. -/
theorem runWebhook_fetches (secret token : Option String)
    (handlers : AsaasEventHandlers) (cfg : Bool) (env : Env) (today : String)
    (body : AsaasEventPayload) (st : Store)
    (hauth : unauthorizedReject secret token = false)
    (hsafe : subSyncKey (mkPayload body) = none ∨ env.subSyncThrows = false) :
    fetchAttempts (runWebhook secret token handlers cfg env today body st).trace =
      fetchAttempts (dispatchEvent handlers cfg env today (mkPayload body)).snd.fst := by
  rw [runWebhook_eq secret token handlers cfg env today body st hauth hsafe]
  simp [fetchAttempts_append, fetchAttempts_syncTrace, fetchAttempts_log]

/-! ## C1 — secret gate -/

/-- C1: with a configured (nonempty) webhook secret and a missing or
non-matching `asaas-access-token` header, the endpoint responds 401
unauthorized with the store untouched and an empty effect trace (no mirror
update, no enrichment fetch, no handler invocation); with no secret
configured, every notification goes to body processing. -/
theorem c1_secret_gate (s : String) (hs : s ≠ "") (token : Option String)
    (hbad : ∀ t, token = some t → t ≠ s)
    (handlers : AsaasEventHandlers) (cfg : Bool) (env : Env) (today : String)
    (body : AsaasEventPayload) (st : Store) :
    runWebhook (some s) token handlers cfg env today body st =
      { response := unauthorizedResponse, store := st, trace := [] } ∧
    runWebhook none token handlers cfg env today body st =
      processBody handlers cfg env today body st := by
  constructor
  · have hrej : unauthorizedReject (some s) token = true := by
      unfold unauthorizedReject
      cases token with
      | none => simp [hs]
      | some t => simp [hs, hbad t rfl]
    unfold runWebhook
    rw [hrej]
    simp
  · unfold runWebhook unauthorizedReject
    simp

/-- C1 witness: a concrete rejected pass and a concrete secretless pass. -/
theorem c1_secret_gate_witness :
    runWebhook (some "sec") (some "wrong") allHandlers true {} "2024-06-15"
      { event := "PAYMENT_CREATED",
        payment := some { id := some "pay_1", status := some "CONFIRMED" } }
      demoStore =
      { response := unauthorizedResponse, store := demoStore, trace := [] } ∧
    runWebhook none (some "wrong") allHandlers true {} "2024-06-15"
      { event := "PAYMENT_CREATED",
        payment := some { id := some "pay_1", status := some "CONFIRMED" } }
      demoStore =
      processBody allHandlers true {} "2024-06-15"
      { event := "PAYMENT_CREATED",
        payment := some { id := some "pay_1", status := some "CONFIRMED" } }
      demoStore := by
  exact c1_secret_gate "sec" (by decide) (some "wrong")
    (by intro t ht; cases ht; decide) allHandlers true {} "2024-06-15"
    { event := "PAYMENT_CREATED",
      payment := some { id := some "pay_1", status := some "CONFIRMED" } }
    demoStore

/-! ## C2 — PAYMENT_OVERDUE disambiguation -/

/-- C2 counterexample: at the UTC instant 2024-06-15T01:00Z on a server at
UTC-3 (whose local date is still 2024-06-14), a PAYMENT_OVERDUE notification
whose payment is due on the server's local date is routed to the overdue
handler, not the due-today handler: the code compares against the UTC date
from `toISOString`, not the server's local date as the claim states. -/
theorem c2_overdue_local_counterexample :
    localDateStr { utcMinutes := 28640220, tzOffsetMinutes := -180 } = "2024-06-14" ∧
    utcDateStr { utcMinutes := 28640220, tzOffsetMinutes := -180 } = "2024-06-15" ∧
    invocations (runWebhookAt none none allHandlers true {}
      { utcMinutes := 28640220, tzOffsetMinutes := -180 }
      { event := "PAYMENT_OVERDUE",
        payment := some { id := some "pay_1", dueDate := some "2024-06-14" } }
      demoStore).trace =
      [(HandlerName.onPaymentOverdue,
        { event := "PAYMENT_OVERDUE",
          payment := some { id := some "pay_1", dueDate := some "2024-06-14" } })] := by
  refine ⟨by decide, by decide, by decide⟩

/-- C2 (amended): PAYMENT_OVERDUE routing compares the embedded payment's
due date with the **UTC** calendar date of the current instant (the date
part of `toISOString`), not the server's local date: on equality the
due-today handler alone is invoked, otherwise (or with no payment snapshot)
the overdue handler alone is invoked. -/
theorem c2_overdue_routing (secret token : Option String)
    (handlers : AsaasEventHandlers) (cfg : Bool) (env : Env) (clock : JsClock)
    (body : AsaasEventPayload) (st : Store)
    (hauth : unauthorizedReject secret token = false)
    (hsafe : subSyncKey (mkPayload body) = none ∨ env.subSyncThrows = false)
    (hev : body.event = "PAYMENT_OVERDUE")
    (hdue : handlers.onPaymentDue = true)
    (hover : handlers.onPaymentOverdue = true) :
    (∀ p, body.payment = some p → p.dueDate = some (utcDateStr clock) →
      invocations (runWebhookAt secret token handlers cfg env clock body st).trace =
        [(HandlerName.onPaymentDue, mkPayload body)]) ∧
    (∀ p, body.payment = some p → p.dueDate ≠ some (utcDateStr clock) →
      invocations (runWebhookAt secret token handlers cfg env clock body st).trace =
        [(HandlerName.onPaymentOverdue, mkPayload body)]) ∧
    (body.payment = none →
      invocations (runWebhookAt secret token handlers cfg env clock body st).trace =
        [(HandlerName.onPaymentOverdue, mkPayload body)]) := by
  have hinv := runWebhook_invocations secret token handlers cfg env (utcDateStr clock)
    body st hauth hsafe
  have hpe : (mkPayload body).event = "PAYMENT_OVERDUE" := hev
  have hpp : (mkPayload body).payment = body.payment := rfl
  refine ⟨?_, ?_, ?_⟩
  · intro p hp hto
    unfold runWebhookAt
    rw [hinv]
    simp [dispatchEvent, hpe, hpp, hp, hto, plainInvoke, invokeIf, hdue, invocations]
  · intro p hp hto
    unfold runWebhookAt
    rw [hinv]
    simp [dispatchEvent, hpe, hpp, hp, hto, plainInvoke, invokeIf, hover, invocations]
  · intro hp
    unfold runWebhookAt
    rw [hinv]
    simp [dispatchEvent, hpe, hpp, hp, plainInvoke, invokeIf, hover, invocations]

/-- C2 witness: a due-today instance of the amended routing theorem. -/
theorem c2_overdue_routing_witness :
    invocations (runWebhookAt none none allHandlers true {}
      { utcMinutes := 28640220, tzOffsetMinutes := 0 }
      { event := "PAYMENT_OVERDUE",
        payment := some { id := some "pay_1", dueDate := some "2024-06-15" } }
      demoStore).trace =
      [(HandlerName.onPaymentDue, mkPayload
        { event := "PAYMENT_OVERDUE",
          payment := some { id := some "pay_1", dueDate := some "2024-06-15" } })] :=
  (c2_overdue_routing none none allHandlers true {}
    { utcMinutes := 28640220, tzOffsetMinutes := 0 }
    { event := "PAYMENT_OVERDUE",
      payment := some { id := some "pay_1", dueDate := some "2024-06-15" } }
    demoStore rfl (Or.inl rfl) rfl rfl rfl).1
    { id := some "pay_1", dueDate := some "2024-06-15" } rfl (by decide)

/-! ## C3 — SUBSCRIPTION_DELETED forced cancel -/

theorem syncStore_subs_of_none (env : Env) (body : AsaasEventPayload) (st : Store)
    (h : subSyncKey (mkPayload body) = none) :
    (syncStore env body st).subs = st.subs := by
  unfold syncStore
  rw [h]
  cases hp : paySyncKey (mkPayload body) with
  | none => rfl
  | some is => cases hth : env.paySyncThrows <;> simp [updatePayStatus]

/-- C3: for a SUBSCRIPTION_DELETED notification whose subscription snapshot
has a truthy id but omits status (so the generic sync of step 1 does not
run), the matching Subscription Mirror Rows' status is forced to the fixed
canceled value "INACTIVE"; the subscription-canceled handler is invoked
right after that update; and when the forced update fails the failure is
tolerated: the acknowledgment is still returned and the handler still
invoked, with the subscription table left unchanged. -/
theorem c3_subscription_deleted (secret token : Option String)
    (handlers : AsaasEventHandlers) (cfg : Bool) (env1 env2 : Env) (today : String)
    (body : AsaasEventPayload) (sub : AsaasSubscriptionWebhookData) (st : Store)
    (hauth : unauthorizedReject secret token = false)
    (hev : body.event = "SUBSCRIPTION_DELETED")
    (hsub : body.subscription = some sub)
    (hid : truthyStr sub.id = true)
    (hst : sub.status = none)
    (hreg : handlers.onSubscriptionCanceled = true)
    (hok : env1.subDeleteThrows = false)
    (hbad : env2.subDeleteThrows = true) :
    (runWebhook secret token handlers cfg env1 today body st).store.subs =
      updateSubStatusL st.subs (sub.id.getD "") "INACTIVE" ∧
    (runWebhook secret token handlers cfg env1 today body st).response = ackResponse ∧
    (∃ pre post, (runWebhook secret token handlers cfg env1 today body st).trace =
      pre ++ [Effect.updateSubscriptionRow (sub.id.getD "") "INACTIVE",
              Effect.invokeHandler HandlerName.onSubscriptionCanceled (mkPayload body)]
        ++ post) ∧
    (runWebhook secret token handlers cfg env2 today body st).response = ackResponse ∧
    (runWebhook secret token handlers cfg env2 today body st).store.subs = st.subs ∧
    invocations (runWebhook secret token handlers cfg env2 today body st).trace =
      [(HandlerName.onSubscriptionCanceled, mkPayload body)] := by
  have hpe : (mkPayload body).event = "SUBSCRIPTION_DELETED" := hev
  have hps : (mkPayload body).subscription = some sub := hsub
  have hsafe : subSyncKey (mkPayload body) = none := by
    simp [subSyncKey, hps, hst, truthyStr]
  have hinv := runWebhook_invocations secret token handlers cfg env2 today body st
    hauth (Or.inl hsafe)
  rw [runWebhook_eq secret token handlers cfg env1 today body st hauth (Or.inl hsafe),
    runWebhook_eq secret token handlers cfg env2 today body st hauth (Or.inl hsafe)]
  rw [runWebhook_eq secret token handlers cfg env2 today body st hauth (Or.inl hsafe)]
    at hinv
  refine ⟨?_, rfl, ?_, rfl, ?_, ?_⟩
  · simp only [dispatchEvent, hpe, hps, hid]
    simp [hok, updateSubStatus, syncStore_subs_of_none env1 body st hsafe]
  · refine ⟨syncTrace body, if (dispatchEvent handlers cfg env1 today
      (mkPayload body)).snd.snd then [Effect.logError] else [], ?_⟩
    simp only [dispatchEvent, hpe, hps, hid]
    simp [invokeIf, hreg]
  · simp only [dispatchEvent, hpe, hps, hid]
    simp [hbad, syncStore_subs_of_none env2 body st hsafe]
  · rw [hinv]
    simp only [dispatchEvent, hpe, hps, hid]
    simp [invokeIf, hreg, invocations]

/-- C3 witness: a concrete SUBSCRIPTION_DELETED pass with a status-less
snapshot, once with the forced update succeeding and once with it failing. -/
theorem c3_subscription_deleted_witness :
    (runWebhook none none allHandlers true {} "2024-06-15"
      { event := "SUBSCRIPTION_DELETED", subscription := some { id := some "sub_1" } }
      demoStore).store.subs = updateSubStatusL demoStore.subs "sub_1" "INACTIVE" ∧
    (runWebhook none none allHandlers true {} "2024-06-15"
      { event := "SUBSCRIPTION_DELETED", subscription := some { id := some "sub_1" } }
      demoStore).response = ackResponse ∧
    (∃ pre post, (runWebhook none none allHandlers true {} "2024-06-15"
      { event := "SUBSCRIPTION_DELETED", subscription := some { id := some "sub_1" } }
      demoStore).trace =
      pre ++ [Effect.updateSubscriptionRow "sub_1" "INACTIVE",
              Effect.invokeHandler HandlerName.onSubscriptionCanceled
                (mkPayload
                  { event := "SUBSCRIPTION_DELETED",
                    subscription := some { id := some "sub_1" } })] ++ post) ∧
    (runWebhook none none allHandlers true { subDeleteThrows := true } "2024-06-15"
      { event := "SUBSCRIPTION_DELETED", subscription := some { id := some "sub_1" } }
      demoStore).response = ackResponse ∧
    (runWebhook none none allHandlers true { subDeleteThrows := true } "2024-06-15"
      { event := "SUBSCRIPTION_DELETED", subscription := some { id := some "sub_1" } }
      demoStore).store.subs = demoStore.subs ∧
    invocations (runWebhook none none allHandlers true { subDeleteThrows := true }
      "2024-06-15"
      { event := "SUBSCRIPTION_DELETED", subscription := some { id := some "sub_1" } }
      demoStore).trace =
      [(HandlerName.onSubscriptionCanceled,
        mkPayload
          { event := "SUBSCRIPTION_DELETED",
            subscription := some { id := some "sub_1" } })] :=
  c3_subscription_deleted none none allHandlers true {} { subDeleteThrows := true }
    "2024-06-15"
    { event := "SUBSCRIPTION_DELETED", subscription := some { id := some "sub_1" } }
    { id := some "sub_1" } demoStore rfl rfl rfl (by decide) rfl rfl rfl rfl

/-! ## C4 — handler failure isolation -/

/-- C4: when an authorized pass reaches dispatch (the generic subscription
sync does not raise) and the invoked handler raises, the error is caught and
logged — the trace ends with the error-log entry — and the endpoint still
returns the fixed acknowledgment; the handler's failure never shows in the
response. -/
theorem c4_handler_error_isolated (secret token : Option String)
    (handlers : AsaasEventHandlers) (cfg : Bool) (env : Env) (today : String)
    (body : AsaasEventPayload) (st : Store)
    (hauth : unauthorizedReject secret token = false)
    (hsafe : subSyncKey (mkPayload body) = none ∨ env.subSyncThrows = false)
    (hthrew : (dispatchEvent handlers cfg env today (mkPayload body)).snd.snd = true) :
    (runWebhook secret token handlers cfg env today body st).response = ackResponse ∧
    (runWebhook secret token handlers cfg env today body st).trace.getLast? =
      some Effect.logError := by
  rw [runWebhook_eq secret token handlers cfg env today body st hauth hsafe]
  refine ⟨rfl, ?_⟩
  simp only [hthrew, if_true]
  repeat rw [List.getLast?_append_of_ne_nil _ (by simp)]
  rfl

/-- C4 witness: a registered confirmed-payment handler that raises. -/
theorem c4_handler_error_isolated_witness :
    (runWebhook none none allHandlers true { handlerThrows := true } "2024-06-15"
      { event := "PAYMENT_CONFIRMED" } demoStore).response = ackResponse ∧
    (runWebhook none none allHandlers true { handlerThrows := true } "2024-06-15"
      { event := "PAYMENT_CONFIRMED" } demoStore).trace.getLast? =
      some Effect.logError :=
  c4_handler_error_isolated none none allHandlers true { handlerThrows := true }
    "2024-06-15" { event := "PAYMENT_CONFIRMED" } demoStore rfl (Or.inl rfl)
    (by decide)

/-! ## C5 — failure absorption -/

/-- C5 counterexample: an authorized notification whose generic
subscription-mirror sync fails makes the endpoint raise instead of
returning the fixed acknowledgment — the subscription half of the generic
local-sync step has no failure guard in the source, unlike the payment
half. -/
theorem c5_sub_sync_failure_counterexample :
    (runWebhook none none allHandlers true { subSyncThrows := true } "2024-06-15"
      { event := "SUBSCRIPTION_UPDATED",
        subscription := some { id := some "sub_1", status := some "ACTIVE" } }
      demoStore).response = WebhookOutcome.raised ∧
    WebhookOutcome.raised ≠ ackResponse :=
  ⟨by decide, by decide⟩

/-- C5 (amended): every authorized pass in which the generic
subscription-mirror sync either does not apply or does not fail returns the
fixed acknowledgment, whatever else fails — a failing or zero-match payment
sync, a failing enrichment fetch, a failing forced cancel update, or a
raising handler. -/
theorem c5_ack_unless_sub_sync_fails (secret token : Option String)
    (handlers : AsaasEventHandlers) (cfg : Bool) (env : Env) (today : String)
    (body : AsaasEventPayload) (st : Store)
    (hauth : unauthorizedReject secret token = false)
    (hsafe : subSyncKey (mkPayload body) = none ∨ env.subSyncThrows = false) :
    (runWebhook secret token handlers cfg env today body st).response = ackResponse := by
  rw [runWebhook_eq secret token handlers cfg env today body st hauth hsafe]

/-- C5 witness: a payment-only notification whose mirror update fails (for
example because no matching local row exists) is still acknowledged, with
every other failure switched on as well. -/
theorem c5_ack_unless_sub_sync_fails_witness :
    (runWebhook none none allHandlers true
      { paySyncThrows := true, subDeleteThrows := true, handlerThrows := true }
      "2024-06-15"
      { event := "PAYMENT_RECEIVED",
        payment := some { id := some "pay_unknown", status := some "RECEIVED" } }
      demoStore).response = ackResponse :=
  c5_ack_unless_sub_sync_fails none none allHandlers true
    { paySyncThrows := true, subDeleteThrows := true, handlerThrows := true }
    "2024-06-15"
    { event := "PAYMENT_RECEIVED",
      payment := some { id := some "pay_unknown", status := some "RECEIVED" } }
    demoStore rfl (Or.inl rfl)

/-! ## C6 — PIX QR-code enrichment -/

/-- C6: on PAYMENT_CREATED or PAYMENT_DUE_DATE_REMINDER with a PIX payment
snapshot carrying a truthy id (and the gateway client configured), exactly
one QR-fetch is attempted; on success the category handler receives the
payload with the `pixQrCode` block attached, and on a throwing fetch it
still fires, with the payload lacking the block. -/
theorem c6_pix_enrichment (secret token : Option String)
    (handlers : AsaasEventHandlers) (env : Env) (today : String)
    (body : AsaasEventPayload) (p : AsaasPaymentWebhookData) (st : Store)
    (hauth : unauthorizedReject secret token = false)
    (hsafe : subSyncKey (mkPayload body) = none ∨ env.subSyncThrows = false)
    (hev : body.event = "PAYMENT_CREATED" ∨ body.event = "PAYMENT_DUE_DATE_REMINDER")
    (hpay : body.payment = some p)
    (hpix : p.billingType = some "PIX")
    (hid : truthyStr p.id = true)
    (hregC : handlers.onPaymentCreated = true)
    (hregD : handlers.onPaymentDueSoon = true) :
    ∃ h : HandlerName,
      (body.event = "PAYMENT_CREATED" → h = HandlerName.onPaymentCreated) ∧
      (body.event = "PAYMENT_DUE_DATE_REMINDER" → h = HandlerName.onPaymentDueSoon) ∧
      fetchAttempts (runWebhook secret token handlers true env today body st).trace =
        [p.id.getD ""] ∧
      (∀ qr, env.pixQr = some qr →
        invocations (runWebhook secret token handlers true env today body st).trace =
          [(h, { mkPayload body with pixQrCode := some qr })]) ∧
      (env.pixQr = none →
        invocations (runWebhook secret token handlers true env today body st).trace =
          [(h, mkPayload body)]) := by
  have hfet := runWebhook_fetches secret token handlers true env today body st hauth hsafe
  have hinv := runWebhook_invocations secret token handlers true env today body st
    hauth hsafe
  have hpp : (mkPayload body).payment = some p := hpay
  cases hev with
  | inl hev =>
    have hpe : (mkPayload body).event = "PAYMENT_CREATED" := hev
    refine ⟨HandlerName.onPaymentCreated, fun _ => rfl, ?_, ?_, ?_, ?_⟩
    · intro hcon
      rw [hev] at hcon
      exact absurd hcon (by decide)
    · rw [hfet]
      cases hqr : env.pixQr <;>
        simp [dispatchEvent, hpe, enrichPix, hpp, hpix, hid, hqr, invokeIf, hregC,
          fetchAttempts_append, fetchAttempts, invocations]
    · intro qr hqr
      rw [hinv]
      simp [dispatchEvent, hpe, enrichPix, hpp, hpix, hid, hqr, invokeIf, hregC,
        invocations_append, invocations]
    · intro hqr
      rw [hinv]
      simp [dispatchEvent, hpe, enrichPix, hpp, hpix, hid, hqr, invokeIf, hregC,
        invocations_append, invocations]
  | inr hev =>
    have hpe : (mkPayload body).event = "PAYMENT_DUE_DATE_REMINDER" := hev
    refine ⟨HandlerName.onPaymentDueSoon, ?_, fun _ => rfl, ?_, ?_, ?_⟩
    · intro hcon
      rw [hev] at hcon
      exact absurd hcon (by decide)
    · rw [hfet]
      cases hqr : env.pixQr <;>
        simp [dispatchEvent, hpe, enrichPix, hpp, hpix, hid, hqr, invokeIf, hregD,
          fetchAttempts_append, fetchAttempts, invocations]
    · intro qr hqr
      rw [hinv]
      simp [dispatchEvent, hpe, enrichPix, hpp, hpix, hid, hqr, invokeIf, hregD,
        invocations_append, invocations]
    · intro hqr
      rw [hinv]
      simp [dispatchEvent, hpe, enrichPix, hpp, hpix, hid, hqr, invokeIf, hregD,
        invocations_append, invocations]

/-- C6 witness: the spec's scenario — event PAYMENT_CREATED with a PIX
payment `pay_1` — once with the enrichment succeeding (payload carries the
block) and once with the fetch throwing (payload lacks it, handler fires). -/
theorem c6_pix_enrichment_witness :
    fetchAttempts (runWebhook none none allHandlers true { pixQr := some demoQr }
      "2024-06-15"
      { event := "PAYMENT_CREATED",
        payment := some { id := some "pay_1", billingType := some "PIX" } }
      demoStore).trace = ["pay_1"] ∧
    invocations (runWebhook none none allHandlers true { pixQr := some demoQr }
      "2024-06-15"
      { event := "PAYMENT_CREATED",
        payment := some { id := some "pay_1", billingType := some "PIX" } }
      demoStore).trace =
      [(HandlerName.onPaymentCreated,
        { event := "PAYMENT_CREATED",
          payment := some { id := some "pay_1", billingType := some "PIX" },
          pixQrCode := some demoQr })] ∧
    invocations (runWebhook none none allHandlers true { pixQr := none }
      "2024-06-15"
      { event := "PAYMENT_CREATED",
        payment := some { id := some "pay_1", billingType := some "PIX" } }
      demoStore).trace =
      [(HandlerName.onPaymentCreated,
        { event := "PAYMENT_CREATED",
          payment := some { id := some "pay_1", billingType := some "PIX" } })] := by
  obtain ⟨h1, hc1, hd1, hf1, hs1, he1⟩ := c6_pix_enrichment none none allHandlers
    { pixQr := some demoQr } "2024-06-15"
    { event := "PAYMENT_CREATED",
      payment := some { id := some "pay_1", billingType := some "PIX" } }
    { id := some "pay_1", billingType := some "PIX" } demoStore rfl (Or.inl rfl)
    (Or.inl rfl) rfl rfl (by decide) rfl rfl
  obtain ⟨h2, hc2, hd2, hf2, hs2, he2⟩ := c6_pix_enrichment none none allHandlers
    { pixQr := none } "2024-06-15"
    { event := "PAYMENT_CREATED",
      payment := some { id := some "pay_1", billingType := some "PIX" } }
    { id := some "pay_1", billingType := some "PIX" } demoStore rfl (Or.inl rfl)
    (Or.inl rfl) rfl rfl (by decide) rfl rfl
  refine ⟨hf1, ?_, ?_⟩
  · have hv := hs1 demoQr rfl
    rw [hc1 rfl] at hv
    exact hv
  · have hv := he2 rfl
    rw [hc2 rfl] at hv
    exact hv

/-! ## C7 — last-write-wins on the subscription mirror -/

/-- C7 counterexample: the second notification of the pair is
SUBSCRIPTION_DELETED carrying snapshot status "ACTIVE"; its forced cancel
overrides the generic sync, so the final stored status is "INACTIVE", not
the status carried by the notification processed last. -/
theorem c7_last_write_counterexample :
    ((runWebhook none none allHandlers true {} "2024-06-15"
      { event := "SUBSCRIPTION_DELETED",
        subscription := some { id := some "sub_1", status := some "ACTIVE" } }
      (runWebhook none none allHandlers true {} "2024-06-15"
        { event := "SUBSCRIPTION_UPDATED",
          subscription := some { id := some "sub_1", status := some "INACTIVE" } }
        demoStore).store).store).subs =
      [{ asaasId := "sub_1", status := "INACTIVE" }] ∧
    ("INACTIVE" : String) ≠ "ACTIVE" :=
  ⟨by decide, by decide⟩

theorem updateSubStatusL_status (rows : List SubRow) (id s : String) (r : SubRow)
    (hr : r ∈ updateSubStatusL rows id s) (hid : r.asaasId = id) : r.status = s := by
  unfold updateSubStatusL at hr
  obtain ⟨r0, hr0, hf⟩ := List.mem_map.mp hr
  by_cases h : r0.asaasId = id
  · rw [if_pos h] at hf
    rw [← hf]
  · rw [if_neg h] at hf
    rw [← hf] at hid
    exact absurd hid h

theorem updateSubStatusL_id_mem (rows : List SubRow) (id s : String) (r : SubRow)
    (hr : r ∈ rows) (hid : r.asaasId = id) :
    ∃ r2 ∈ updateSubStatusL rows id s, r2.asaasId = id ∧ r2.status = s := by
  refine ⟨{ r with status := s }, ?_, hid, rfl⟩
  unfold updateSubStatusL
  exact List.mem_map.mpr ⟨r, hr, by rw [if_pos hid]⟩

theorem dispatchEvent_store_id (handlers : AsaasEventHandlers) (cfg : Bool) (env : Env)
    (today : String) (payload : AsaasEventPayload)
    (hne : payload.event ≠ "SUBSCRIPTION_DELETED") :
    (dispatchEvent handlers cfg env today payload).fst = id := by
  have h : (payload.event == "SUBSCRIPTION_DELETED") = false := by
    simp [hne]
  unfold dispatchEvent plainInvoke
  simp only [h, Bool.false_eq_true, if_false]
  repeat' split <;> try rfl

theorem syncStore_subs_of_some (env : Env) (body : AsaasEventPayload) (st : Store)
    (is : String × String) (h : subSyncKey (mkPayload body) = some is) :
    (syncStore env body st).subs = updateSubStatusL st.subs is.fst is.snd := by
  unfold syncStore
  rw [h]
  cases hp : paySyncKey (mkPayload body) with
  | none => rfl
  | some is2 =>
    cases hth : env.paySyncThrows <;> simp [updatePayStatus, updateSubStatus]

/-- C7 (amended): for two sequentially processed authorized notifications
whose events are **not** SUBSCRIPTION_DELETED (whose forced cancel would
override), carrying subscription snapshots with the same nonempty gateway id
and nonempty statuses, and whose generic sync does not fail, the final
stored status of every matching mirror row is the status carried by the
notification processed last, in either order of the two statuses. -/
theorem c7_last_write_wins (secret token : Option String)
    (handlers : AsaasEventHandlers) (cfg : Bool) (env1 env2 : Env)
    (today1 today2 : String) (b1 b2 : AsaasEventPayload) (sid s1 s2 : String)
    (st : Store)
    (hauth : unauthorizedReject secret token = false)
    (hsub1 : b1.subscription = some { id := some sid, status := some s1 })
    (hsub2 : b2.subscription = some { id := some sid, status := some s2 })
    (hsid : sid ≠ "") (hs1 : s1 ≠ "") (hs2 : s2 ≠ "")
    (hne1 : b1.event ≠ "SUBSCRIPTION_DELETED")
    (hne2 : b2.event ≠ "SUBSCRIPTION_DELETED")
    (ht1 : env1.subSyncThrows = false) (ht2 : env2.subSyncThrows = false) :
    (runWebhook secret token handlers cfg env2 today2 b2
      (runWebhook secret token handlers cfg env1 today1 b1 st).store).store.subs =
      updateSubStatusL (updateSubStatusL st.subs sid s1) sid s2 ∧
    (∀ r ∈ (runWebhook secret token handlers cfg env2 today2 b2
      (runWebhook secret token handlers cfg env1 today1 b1 st).store).store.subs,
      r.asaasId = sid → r.status = s2) ∧
    ((∃ r ∈ st.subs, r.asaasId = sid) →
      ∃ r2 ∈ (runWebhook secret token handlers cfg env2 today2 b2
        (runWebhook secret token handlers cfg env1 today1 b1 st).store).store.subs,
        r2.asaasId = sid ∧ r2.status = s2) := by
  have hk1 : subSyncKey (mkPayload b1) = some (sid, s1) := by
    simp [subSyncKey, mkPayload, hsub1, truthyStr, hsid, hs1]
  have hk2 : subSyncKey (mkPayload b2) = some (sid, s2) := by
    simp [subSyncKey, mkPayload, hsub2, truthyStr, hsid, hs2]
  have heq : (runWebhook secret token handlers cfg env2 today2 b2
      (runWebhook secret token handlers cfg env1 today1 b1 st).store).store.subs =
      updateSubStatusL (updateSubStatusL st.subs sid s1) sid s2 := by
    rw [runWebhook_eq secret token handlers cfg env1 today1 b1 st hauth (Or.inr ht1)]
    rw [runWebhook_eq secret token handlers cfg env2 today2 b2 _ hauth (Or.inr ht2)]
    simp only [dispatchEvent_store_id handlers cfg env1 today1 (mkPayload b1) hne1,
      dispatchEvent_store_id handlers cfg env2 today2 (mkPayload b2) hne2, id_eq]
    rw [syncStore_subs_of_some env2 b2 _ (sid, s2) hk2,
      syncStore_subs_of_some env1 b1 st (sid, s1) hk1]
  refine ⟨heq, ?_, ?_⟩
  · intro r hr hid
    rw [heq] at hr
    exact updateSubStatusL_status _ sid s2 r hr hid
  · rintro ⟨r, hr, hid⟩
    obtain ⟨r1, hr1, hid1, _⟩ := updateSubStatusL_id_mem st.subs sid s1 r hr hid
    obtain ⟨r2, hr2, hid2, hst2⟩ :=
      updateSubStatusL_id_mem (updateSubStatusL st.subs sid s1) sid s2 r1 hr1 hid1
    exact ⟨r2, by rw [heq]; exact hr2, hid2, hst2⟩

/-- C7 witness: the spec's scenario in both orders — "ACTIVE" then
"INACTIVE" ends "INACTIVE", and "INACTIVE" then "ACTIVE" ends "ACTIVE". -/
theorem c7_last_write_wins_witness :
    (runWebhook none none allHandlers true {} "2024-06-15"
      { event := "SUBSCRIPTION_UPDATED",
        subscription := some { id := some "sub_1", status := some "INACTIVE" } }
      (runWebhook none none allHandlers true {} "2024-06-15"
        { event := "SUBSCRIPTION_UPDATED",
          subscription := some { id := some "sub_1", status := some "ACTIVE" } }
        demoStore).store).store.subs =
      updateSubStatusL (updateSubStatusL demoStore.subs "sub_1" "ACTIVE")
        "sub_1" "INACTIVE" ∧
    (runWebhook none none allHandlers true {} "2024-06-15"
      { event := "SUBSCRIPTION_UPDATED",
        subscription := some { id := some "sub_1", status := some "ACTIVE" } }
      (runWebhook none none allHandlers true {} "2024-06-15"
        { event := "SUBSCRIPTION_UPDATED",
          subscription := some { id := some "sub_1", status := some "INACTIVE" } }
        demoStore).store).store.subs =
      updateSubStatusL (updateSubStatusL demoStore.subs "sub_1" "INACTIVE")
        "sub_1" "ACTIVE" :=
  ⟨(c7_last_write_wins none none allHandlers true {} {} "2024-06-15" "2024-06-15"
      { event := "SUBSCRIPTION_UPDATED",
        subscription := some { id := some "sub_1", status := some "ACTIVE" } }
      { event := "SUBSCRIPTION_UPDATED",
        subscription := some { id := some "sub_1", status := some "INACTIVE" } }
      "sub_1" "ACTIVE" "INACTIVE" demoStore rfl rfl rfl (by decide) (by decide)
      (by decide) (by decide) (by decide) rfl rfl).1,
   (c7_last_write_wins none none allHandlers true {} {} "2024-06-15" "2024-06-15"
      { event := "SUBSCRIPTION_UPDATED",
        subscription := some { id := some "sub_1", status := some "INACTIVE" } }
      { event := "SUBSCRIPTION_UPDATED",
        subscription := some { id := some "sub_1", status := some "ACTIVE" } }
      "sub_1" "INACTIVE" "ACTIVE" demoStore rfl rfl rfl (by decide) (by decide)
      (by decide) (by decide) (by decide) rfl rfl).1⟩

/-! ## C8 — trial subscription creation -/

/-- C8: a subscription creation with trialDays = 14 and nextDueDate omitted,
by a linked user, against a gateway that echoes the requested first billing
date and reports the subscription immediately "ACTIVE", stores a mirror row
whose nextDueDate and trialEndsAt both equal the current date plus 14 days,
and the reported subscription status is "ACTIVE" — not a pending-trial
state. -/
theorem c8_trial_subscription (user : AuthUser) (body : CreateSubBody)
    (clock : JsClock) (resp : AsaasSubscriptionInput → AsaasSubscription) (st : Store)
    (hcust : truthyStr user.asaasCustomerId = true)
    (htrial : body.trialDays = some 14)
    (_hdue : body.nextDueDate = none)
    (hecho : ∀ inp, (resp inp).nextDueDate = inp.nextDueDate)
    (hactive : ∀ inp, (resp inp).status = "ACTIVE") :
    ∃ row sub,
      (createSubscriptionRun user body clock (fun inp => some (resp inp)) st).store.subs =
        st.subs ++ [row] ∧
      row.nextDueDate = jsAddDaysISO clock 14 ∧
      row.trialEndsAt = some (jsAddDaysISO clock 14) ∧
      row.status = "ACTIVE" ∧
      (createSubscriptionRun user body clock (fun inp => some (resp inp)) st).response =
        CreateSubOutcome.success sub (some (jsAddDaysISO clock 14)) ∧
      sub.status = "ACTIVE" ∧ sub.nextDueDate = jsAddDaysISO clock 14 := by
  have htn : truthyNat body.trialDays = true := by rw [htrial]; rfl
  unfold createSubscriptionRun
  rw [hcust]
  simp only [Bool.not_true, Bool.false_eq_true, if_false, htn, Bool.false_and,
    htrial, Option.getD_some, if_true]
  refine ⟨_, _, rfl, ?_, rfl, ?_, rfl, ?_, ?_⟩
  · exact (hecho _).trans rfl
  · exact hactive _
  · exact hactive _
  · exact (hecho _).trans rfl

/-- C8 witness: a concrete 14-day-trial creation on 2026-10-12, with an
echoing gateway, lands nextDueDate = trialEndsAt = 2026-10-26, ACTIVE. -/
theorem c8_trial_subscription_witness :
    ∃ row sub,
      (createSubscriptionRun { id := "user_1", asaasCustomerId := some "cus_1" }
        { billingType := "PIX", value := 99, trialDays := some 14 }
        { utcMinutes := 29870100, tzOffsetMinutes := -180 }
        (fun inp => some
          ({ id := "sub_9", nextDueDate := inp.nextDueDate,
             status := "ACTIVE" } : AsaasSubscription))
        demoStore).store.subs = demoStore.subs ++ [row] ∧
      row.nextDueDate =
        jsAddDaysISO { utcMinutes := 29870100, tzOffsetMinutes := -180 } 14 ∧
      row.trialEndsAt =
        some (jsAddDaysISO { utcMinutes := 29870100, tzOffsetMinutes := -180 } 14) ∧
      row.status = "ACTIVE" ∧
      (createSubscriptionRun { id := "user_1", asaasCustomerId := some "cus_1" }
        { billingType := "PIX", value := 99, trialDays := some 14 }
        { utcMinutes := 29870100, tzOffsetMinutes := -180 }
        (fun inp => some
          ({ id := "sub_9", nextDueDate := inp.nextDueDate,
             status := "ACTIVE" } : AsaasSubscription))
        demoStore).response = CreateSubOutcome.success sub
          (some (jsAddDaysISO { utcMinutes := 29870100, tzOffsetMinutes := -180 } 14)) ∧
      sub.status = "ACTIVE" ∧
      sub.nextDueDate =
        jsAddDaysISO { utcMinutes := 29870100, tzOffsetMinutes := -180 } 14 :=
  c8_trial_subscription { id := "user_1", asaasCustomerId := some "cus_1" }
    { billingType := "PIX", value := 99, trialDays := some 14 }
    { utcMinutes := 29870100, tzOffsetMinutes := -180 }
    (fun inp =>
      ({ id := "sub_9", nextDueDate := inp.nextDueDate,
         status := "ACTIVE" } : AsaasSubscription))
    demoStore rfl rfl rfl (fun _ => rfl) (fun _ => rfl)

/-! ## C9 — fixed authentication headers -/

/-- C9 counterexample: a caller-supplied `access_token` entry in
`init.headers` is copied over the fixed headers after them, so the outbound
request carries the caller's value, not the configured API key — the claim's
"regardless of any caller-supplied headers" fails. -/
theorem c9_override_counterexample :
    headersGet (buildRequestHeaders "key" "better-auth-asaas"
      [("access_token", "evil")]) "access_token" = some "evil" ∧
    ("evil" : String) ≠ "key" :=
  ⟨rfl, by decide⟩

theorem headersGet_set_self (hs : HeadersMap) (k v : String) :
    headersGet (headersSet hs k v) k = some v := by
  unfold headersGet headersSet
  rw [if_pos rfl]

theorem headersGet_set_other (hs : HeadersMap) (k v q : String)
    (h : lowerName q ≠ lowerName k) :
    headersGet (headersSet hs k v) q = headersGet hs q := by
  unfold headersGet headersSet
  rw [if_neg h]

theorem headersGet_set_isSome (hs : HeadersMap) (k v q : String)
    (h : (headersGet hs q).isSome = true) :
    (headersGet (headersSet hs k v) q).isSome = true := by
  simp only [headersGet, headersSet] at h ⊢
  by_cases hq : lowerName q = lowerName k
  · rw [if_pos hq]
    rfl
  · rw [if_neg hq]
    exact h

theorem headersGet_foldl_of_not_mem (l : List (String × String)) (h0 : HeadersMap)
    (q : String) (hq : ∀ p ∈ l, lowerName p.fst ≠ lowerName q) :
    headersGet (l.foldl (fun acc p => headersSet acc p.fst p.snd) h0) q =
      headersGet h0 q := by
  induction l generalizing h0 with
  | nil => rfl
  | cons p rest ih =>
    rw [List.foldl_cons, ih _ fun p2 h2 => hq p2 (List.mem_cons_of_mem p h2)]
    exact headersGet_set_other h0 p.fst p.snd q
      fun he => hq p (List.mem_cons_self p rest) he.symm

theorem headersGet_foldl_isSome (l : List (String × String)) (h0 : HeadersMap)
    (q : String) (h : (headersGet h0 q).isSome = true) :
    (headersGet (l.foldl (fun acc p => headersSet acc p.fst p.snd) h0) q).isSome =
      true := by
  induction l generalizing h0 with
  | nil => exact h
  | cons p rest ih =>
    rw [List.foldl_cons]
    exact ih _ (headersGet_set_isSome _ _ _ _ h)

/-- C9 (amended): every outbound request's headers always contain an
`access_token` entry and a `User-Agent` entry, and whenever the
caller-supplied init headers do not themselves name those two headers the
values are exactly the configured API key and user agent; caller-supplied
entries are applied after the fixed ones and take precedence. -/
theorem c9_fixed_headers (apiKey ua : String) (initHeaders : List (String × String))
    (hak : ∀ p ∈ initHeaders, lowerName p.fst ≠ "access_token")
    (hua : ∀ p ∈ initHeaders, lowerName p.fst ≠ "user-agent") :
    headersGet (buildRequestHeaders apiKey ua initHeaders) "access_token" =
      some apiKey ∧
    headersGet (buildRequestHeaders apiKey ua initHeaders) "User-Agent" = some ua ∧
    ∀ init2 : List (String × String),
      (headersGet (buildRequestHeaders apiKey ua init2) "access_token").isSome =
        true ∧
      (headersGet (buildRequestHeaders apiKey ua init2) "User-Agent").isSome =
        true := by
  have hat : lowerName "access_token" = "access_token" := rfl
  have huat : lowerName "User-Agent" = "user-agent" := rfl
  have hbase1 : headersGet (headersSet (headersSet
      (headersSet emptyHeaders "Content-Type" "application/json") "User-Agent" ua)
      "access_token" apiKey) "access_token" = some apiKey :=
    headersGet_set_self _ _ _
  have hbase2 : headersGet (headersSet (headersSet
      (headersSet emptyHeaders "Content-Type" "application/json") "User-Agent" ua)
      "access_token" apiKey) "User-Agent" = some ua := by
    rw [headersGet_set_other _ _ _ _ (by rw [huat, hat]; decide)]
    exact headersGet_set_self _ _ _
  refine ⟨?_, ?_, ?_⟩
  · unfold buildRequestHeaders
    rw [headersGet_foldl_of_not_mem _ _ _ (by rw [hat]; exact hak)]
    exact hbase1
  · unfold buildRequestHeaders
    rw [headersGet_foldl_of_not_mem _ _ _ (by rw [huat]; exact hua)]
    exact hbase2
  · intro init2
    constructor
    · unfold buildRequestHeaders
      exact headersGet_foldl_isSome _ _ _ (by rw [hbase1]; rfl)
    · unfold buildRequestHeaders
      exact headersGet_foldl_isSome _ _ _ (by rw [hbase2]; rfl)

/-- C9 witness: a request with an unrelated caller-supplied header keeps the
configured key and user agent; presence holds even for overriding callers. -/
theorem c9_fixed_headers_witness :
    headersGet (buildRequestHeaders "key" "my-app" [("X-Custom", "1")])
      "access_token" = some "key" ∧
    headersGet (buildRequestHeaders "key" "my-app" [("X-Custom", "1")])
      "User-Agent" = some "my-app" ∧
    ∀ init2 : List (String × String),
      (headersGet (buildRequestHeaders "key" "my-app" init2) "access_token").isSome =
        true ∧
      (headersGet (buildRequestHeaders "key" "my-app" init2) "User-Agent").isSome =
        true :=
  c9_fixed_headers "key" "my-app" [("X-Custom", "1")] (by decide) (by decide)

/-! ## C10 — missing billing start date -/

/-- C10: with both nextDueDate and trialDays omitted (falsy), the endpoint
returns a 400 error response before any gateway call is made and before any
mirror row is created: the store is unchanged and no gateway call is
recorded (whether or not the user has a linked customer, either 400 guard
fires first). -/
theorem c10_missing_due_date (user : AuthUser) (body : CreateSubBody)
    (clock : JsClock) (gw : AsaasSubscriptionInput → Option AsaasSubscription)
    (st : Store)
    (ht : truthyNat body.trialDays = false)
    (hn : truthyStr body.nextDueDate = false) :
    (∃ msg, (createSubscriptionRun user body clock gw st).response =
      CreateSubOutcome.badRequest msg) ∧
    (createSubscriptionRun user body clock gw st).store = st ∧
    (createSubscriptionRun user body clock gw st).gwCalls = [] := by
  unfold createSubscriptionRun
  cases hc : truthyStr user.asaasCustomerId with
  | false =>
    refine ⟨⟨"No Asaas customer linked to this account.", ?_⟩, ?_, ?_⟩ <;> simp
  | true =>
    refine ⟨⟨"Provide either nextDueDate or trialDays.", ?_⟩, ?_, ?_⟩ <;>
      simp [ht, hn]

/-- C10 witness: a linked user submitting neither nextDueDate nor trialDays
gets a 400 with no gateway call and an unchanged store. -/
theorem c10_missing_due_date_witness :
    (∃ msg, (createSubscriptionRun { id := "user_1", asaasCustomerId := some "cus_1" }
      { billingType := "PIX", value := 99 } { utcMinutes := 29870100 }
      (fun _ => none) demoStore).response = CreateSubOutcome.badRequest msg) ∧
    (createSubscriptionRun { id := "user_1", asaasCustomerId := some "cus_1" }
      { billingType := "PIX", value := 99 } { utcMinutes := 29870100 }
      (fun _ => none) demoStore).store = demoStore ∧
    (createSubscriptionRun { id := "user_1", asaasCustomerId := some "cus_1" }
      { billingType := "PIX", value := 99 } { utcMinutes := 29870100 }
      (fun _ => none) demoStore).gwCalls = [] :=
  c10_missing_due_date { id := "user_1", asaasCustomerId := some "cus_1" }
    { billingType := "PIX", value := 99 } { utcMinutes := 29870100 }
    (fun _ => none) demoStore rfl rfl

end BetterAuthAsaas
